import Mathlib

/-!
Verification of the involute spur-gear generator and gear-train kinematics
(`src/gear.js`).

The source is JavaScript operating on IEEE doubles; the embedding models its
arithmetic over the reals, as the specified properties are stated in exact real
arithmetic.  Pure functions of the source become Lean functions with the same
names; the `Gear` class becomes a record `GearState` of its scalar fields, its
methods become functions from the record (plus the pinion's state, which the
source reads through the `this.pinion` reference) to the updated record.  The
one unbounded `while` loop of the source (`generateInvoluteCurve`) is embedded
with an explicit fuel parameter; every theorem about it holds for all
sufficiently large fuel, hence for the unbounded loop.
-/

open Real

/-- The object literal returned by `generateGearParams` in the source. -/
structure GearParams where
  pressureAngle : ℝ
  pressureAngleDeg : ℝ
  pitchAngle : ℝ
  pitchCircleRadius : ℝ
  baseCircleRadius : ℝ
  addendum : ℝ
  dedendum : ℝ
  maxRadius : ℝ
  minRadius : ℝ
  alpha : ℝ
  teeth : ℕ
  mod : ℝ

/-- Source `degToRad(angle) = angle * PI / 180`. -/
noncomputable def degToRad (angle : ℝ) : ℝ := angle * Real.pi / 180

/-- Source `generateGearParams(teeth, mod, pressureAngleDeg)`, field by field. -/
noncomputable def generateGearParams (teeth : ℕ) (mod pressureAngleDeg : ℝ) : GearParams :=
  let pressureAngle := degToRad pressureAngleDeg
  let pitchAngle := 2 * Real.pi / (teeth : ℝ)
  let pitchCircleRadius := mod * (teeth : ℝ) / 2
  let baseCircleRadius := pitchCircleRadius * Real.cos pressureAngle
  let addendum := mod
  let dedendum := 1.2 * mod
  let maxRadius := pitchCircleRadius + addendum
  let minRadius := pitchCircleRadius - dedendum
  let alpha := Real.sqrt (pitchCircleRadius ^ 2 - baseCircleRadius ^ 2) / baseCircleRadius
      - pressureAngle
  { pressureAngle := pressureAngle
    pressureAngleDeg := pressureAngleDeg
    pitchAngle := pitchAngle
    pitchCircleRadius := pitchCircleRadius
    baseCircleRadius := baseCircleRadius
    addendum := addendum
    dedendum := dedendum
    maxRadius := maxRadius
    minRadius := minRadius
    alpha := alpha
    teeth := teeth
    mod := mod }

/-- Source `involutePoint(t, baseRadius)`: a 2D point of the involute of the
base circle at unwind parameter `t`. -/
noncomputable def involutePoint (t baseRadius : ℝ) : ℝ × ℝ :=
  (baseRadius * (Real.cos t + t * Real.sin t),
   baseRadius * (Real.sin t - t * Real.cos t))

/-- `THREE.Vector2.length()`: Euclidean distance from the origin. -/
noncomputable def vlength (p : ℝ × ℝ) : ℝ := Real.sqrt (p.1 ^ 2 + p.2 ^ 2)

/-- Source constant `INVOLUTE_STEP = 0.05`. -/
noncomputable def INVOLUTE_STEP : ℝ := 0.05

/-- The `while` loop of `generateInvoluteCurve`, embedded with fuel.  State is
`(t, point, pointsArray)` exactly as in the source: the loop tests the length
of `point` (the value computed on the previous pass, initially at `t = 0`),
then recomputes `point` at the current `t`, pushes it and advances `t`. -/
noncomputable def involuteLoop (baseRadius maxRadius step : ℝ) :
    ℕ → ℝ → ℝ × ℝ → List (ℝ × ℝ) → List (ℝ × ℝ)
  | 0, _, _, acc => acc
  | fuel + 1, t, point, acc =>
    if vlength point < maxRadius then
      involuteLoop baseRadius maxRadius step fuel (t + step) (involutePoint t baseRadius)
        (acc ++ [involutePoint t baseRadius])
    else acc

/-- Source `generateInvoluteCurve(baseRadius, maxRadius, step)`: the stepped
loop followed by the unconditional push of the exact endpoint at
`endPointParam = sqrt(maxRadius^2 / baseRadius^2 - 1)`. -/
noncomputable def generateInvoluteCurve (baseRadius maxRadius step : ℝ) (fuel : ℕ) :
    List (ℝ × ℝ) :=
  let endPointParam := Real.sqrt (maxRadius ^ 2 / baseRadius ^ 2 - 1)
  let pointsArray := involuteLoop baseRadius maxRadius step fuel 0 (involutePoint 0 baseRadius) []
  pointsArray ++ [involutePoint endPointParam baseRadius]

/-- Source `polToCar(r, w)`. -/
noncomputable def polToCar (r w : ℝ) : ℝ × ℝ := (r * Real.cos w, r * Real.sin w)

/-- `THREE.Vector2.rotateAround(origin, angle)` specialised to the origin
`(0, 0)`, which is the only origin the source ever passes. -/
noncomputable def rotateAround (v : ℝ × ℝ) (angle : ℝ) : ℝ × ℝ :=
  (v.1 * Real.cos angle - v.2 * Real.sin angle,
   v.1 * Real.sin angle + v.2 * Real.cos angle)

/-- Source `rotateVec2Array(array, angle)` (origin defaulted to `(0,0)`). -/
noncomputable def rotateVec2Array (array : List (ℝ × ℝ)) (angle : ℝ) : List (ℝ × ℝ) :=
  array.map (fun vec => rotateAround vec angle)

/-- Source `reflectVec2Array(array, angle)`: reflection of every point in the
ray through the origin at `angle`. -/
noncomputable def reflectVec2Array (array : List (ℝ × ℝ)) (angle : ℝ) : List (ℝ × ℝ) :=
  array.map (fun vec =>
    (Real.cos (2 * angle) * vec.1 + Real.sin (2 * angle) * vec.2,
     Real.sin (2 * angle) * vec.1 - Real.cos (2 * angle) * vec.2))

open Classical in
/-- Source `rotateShape(shape, rotationAngle)`: the `rotationAngle % (2*PI) == 0`
fast path returns the shape unchanged, otherwise every point is rotated.  A
shape is modelled by its list of boundary points.  The JavaScript remainder
test `a % (2*PI) == 0` holds exactly when `a` is an integer multiple of `2*PI`. -/
noncomputable def rotateShape (shape : List (ℝ × ℝ)) (rotationAngle : ℝ) : List (ℝ × ℝ) :=
  if ∃ k : ℤ, rotationAngle = 2 * Real.pi * k then shape
  else rotateVec2Array shape rotationAngle

/-- Source `generateGearSegment(pitchAngle, baseRadius, maxRadius, minRadius, alpha)`.
The `THREE.Shape` is modelled by its polyline: `setFromPoints` starts a fresh
subpath at the first profile point (discarding the dangling initial `moveTo`),
lays down the profile, and the two `lineTo` calls and the final `lineTo(0,0)`
append the root points and the centre. -/
noncomputable def generateGearSegment (pitchAngle baseRadius maxRadius minRadius alpha : ℝ)
    (fuel : ℕ) : List (ℝ × ℝ) :=
  let involutePoints1 := generateInvoluteCurve baseRadius maxRadius INVOLUTE_STEP fuel
  let involutePoints2 := reflectVec2Array involutePoints1 (pitchAngle / 4 + alpha)
  let involuteToothProfile := involutePoints1 ++ involutePoints2.reverse
  let pt1 := polToCar minRadius (pitchAngle * 0.5 + 2 * alpha)
  let pt2 := polToCar minRadius pitchAngle
  rotateShape (involuteToothProfile ++ [pt1, pt2, (0, 0)]) (-1 * alpha)

/-- Source `generateGearShapeFromParams(params)`: one segment per tooth,
segment `i` rotated by `i * pitchAngle`. -/
noncomputable def generateGearShapeFromParams (params : GearParams) (fuel : ℕ) :
    List (List (ℝ × ℝ)) :=
  let segment := generateGearSegment params.pitchAngle params.baseCircleRadius
    params.maxRadius params.minRadius params.alpha fuel
  (List.range params.teeth).map (fun i : ℕ => rotateShape segment ((i : ℝ) * params.pitchAngle))

/-- The scalar state of a `Gear` object: its identity (`teeth`, `mod`, cached
`parameters`) and its mutable kinematic fields.  `rotation` stands for
`mesh.rotation.z` (initially `0` on a fresh mesh); the rendering-only fields
(`color`, `geometry`, `material`) are outside the model. -/
structure GearState where
  teeth : ℕ
  mod : ℝ
  parameters : GearParams
  angle : ℝ
  x : ℝ
  y : ℝ
  rotation : ℝ
  ratio : ℝ
  rotationSpeed : ℝ

/-- Source `Gear.calculateRatio()`: reads `this.pinion` (second argument). -/
noncomputable def calculateRatio (g : GearState) (pinion : Option GearState) : GearState :=
  match pinion with
  | some p =>
    { g with ratio := (p.teeth : ℝ) / (g.teeth : ℝ),
             rotationSpeed := -1 * p.rotationSpeed * ((p.teeth : ℝ) / (g.teeth : ℝ)) }
  | none => { g with ratio := 1, rotationSpeed := 1 }

/-- The `Gear` constructor: stores `teeth` and `mod`, computes `parameters`,
zeroes `angle`, `x`, `y` (and the fresh mesh's `rotation`), then calls
`calculateRatio`.  `ratio` and `rotationSpeed` are unassigned before
`calculateRatio` runs (placeholders `1` here), and `calculateRatio` assigns
both in every branch. -/
noncomputable def mkGear (teeth : ℕ) (mod pressureAngleDeg : ℝ) (pinion : Option GearState) :
    GearState :=
  calculateRatio
    { teeth := teeth
      mod := mod
      parameters := generateGearParams teeth mod pressureAngleDeg
      angle := 0
      x := 0
      y := 0
      rotation := 0
      ratio := 1
      rotationSpeed := 1 } pinion

/-- Source `Gear.positionGear()`: places the gear at centre distance
`(mod * teeth + mod * pinion.teeth) / 2` from its pinion, in direction `angle`. -/
noncomputable def positionGear (g : GearState) (pinion : Option GearState) : GearState :=
  match pinion with
  | some p =>
    let centreDistance := (g.mod * (g.teeth : ℝ) + g.mod * (p.teeth : ℝ)) / 2
    let offsetX := centreDistance * Real.cos g.angle
    let offsetY := centreDistance * Real.sin g.angle
    { g with x := p.x + offsetX, y := p.y + offsetY }
  | none => g

/-- Source `Gear.rotateGear()`: adds `PI + angle`, then
`(angle - pinion.rotation) * ratio`, to the rotation. -/
noncomputable def rotateGear (g : GearState) (pinion : Option GearState) : GearState :=
  match pinion with
  | some p =>
    { g with rotation := g.rotation + (Real.pi + g.angle)
        + (g.angle - p.rotation) * g.ratio }
  | none => g

/-- Source `Gear.driveBy(angle)`. -/
noncomputable def driveBy (g : GearState) (angle : ℝ) : GearState :=
  { g with rotation := g.rotation + angle * g.rotationSpeed }

/-- Source `Gear.addGear(teeth, angle)`: constructs the child with the
pinion's own `mod` and `pressureAngleDeg` and `this` as pinion, records it in
`childGears`, sets its `angle`, then positions and phase-locks it.  The value
returned is the child's state. -/
noncomputable def addGear (p : GearState) (teeth : ℕ) (angle : ℝ) : GearState :=
  let newGear := mkGear teeth p.mod p.parameters.pressureAngleDeg (some p)
  let g1 := { newGear with angle := angle }
  rotateGear (positionGear g1 (some p)) (some p)

/-- One gear object of the heap: its scalar state plus the index of its pinion
in the containing collection (`none` for a root).  The `childGears` set is the
inverse of the `pinion` field. -/
structure GearNode where
  state : GearState
  pinion : Option ℕ

/-- `driveBy` invoked on the gear stored at index `i` of a collection of gear
objects: only that object is touched, exactly as a method call on one heap
object. -/
noncomputable def driveByAt : List GearNode → ℕ → ℝ → List GearNode
  | [], _, _ => []
  | n :: rest, 0, a => { n with state := driveBy n.state a } :: rest
  | n :: rest, i + 1, a => n :: driveByAt rest i a

/-- C1 (amended): in the 3-level tree root(20) → mid(10) → leaf(5) built with
`addGear`, the leaf's `rotationSpeed` is the root's implicit speed `1` scaled
by `(-20/10) * (-10/5) = 4` (the per-mesh factor is
`teeth_pinion / teeth_self`), whatever the attachment angles. -/
theorem threeLevel_leaf_rotationSpeed (a1 a2 : ℝ) :
    (addGear (addGear (mkGear 20 3 20 none) 10 a1) 5 a2).rotationSpeed = 4 := by
  simp [addGear, mkGear, calculateRatio, positionGear, rotateGear]
  norm_num

/-- C1 (counterexample to the claim as stated): the leaf of the
root(20) → mid(10) → leaf(5) tree has `rotationSpeed = 4`, not
`1 * (-10/20) * (-5/10) = 0.25`. -/
theorem threeLevel_leaf_rotationSpeed_cex :
    (addGear (addGear (mkGear 20 3 20 none) 10 0) 5 0).rotationSpeed = 4 ∧
    (addGear (addGear (mkGear 20 3 20 none) 10 0) 5 0).rotationSpeed ≠
      1 * (-(10 / 20) * -(5 / 10) : ℝ) := by
  constructor <;> norm_num [addGear, mkGear, calculateRatio, positionGear, rotateGear]

/-- C3 (counterexample to the claim as stated): constructing a gear whose
module `2` differs from its pinion's module `3` completes normally — the
constructor has no module check and no error path; it computes the kinematic
fields as usual (`ratio = 20/10 = 2`, `rotationSpeed = -2`). -/
theorem mismatchedModule_no_error :
    (mkGear 10 2 20 (some (mkGear 20 3 20 none))).mod = 2 ∧
    (mkGear 20 3 20 none).mod = 3 ∧
    (mkGear 10 2 20 (some (mkGear 20 3 20 none))).ratio = 2 ∧
    (mkGear 10 2 20 (some (mkGear 20 3 20 none))).rotationSpeed = -2 := by
  refine ⟨?_, ?_, ?_, ?_⟩ <;> norm_num [mkGear, calculateRatio]

/-- C3 (amended): the code never raises `ModuleMismatch`.  The constructor
accepts any module alongside any pinion and computes `ratio` and
`rotationSpeed` normally, and `addGear` always builds the child with the
pinion's own module, so a mismatch cannot arise through `addGear` at all. -/
theorem constructor_module_unchecked :
    (∀ (p : GearState) (teeth : ℕ) (mod pressureAngleDeg : ℝ),
      (mkGear teeth mod pressureAngleDeg (some p)).mod = mod ∧
      (mkGear teeth mod pressureAngleDeg (some p)).ratio = (p.teeth : ℝ) / (teeth : ℝ) ∧
      (mkGear teeth mod pressureAngleDeg (some p)).rotationSpeed =
        -1 * p.rotationSpeed * ((p.teeth : ℝ) / (teeth : ℝ))) ∧
    (∀ (p : GearState) (teeth : ℕ) (angle : ℝ), (addGear p teeth angle).mod = p.mod) := by
  constructor
  · intro p teeth mod pressureAngleDeg
    refine ⟨?_, ?_, ?_⟩ <;> simp [mkGear, calculateRatio]
  · intro p teeth angle
    simp [addGear, mkGear, calculateRatio, positionGear, rotateGear]

/-- C5: the child attached by `addGear(teeth, angle)` to pinion `p` ends up
with rotation `π + angle + (angle - p.rotation) * (p.teeth / teeth)`, starting
from the fresh mesh's rotation `0`. -/
theorem addGear_rotation_formula (p : GearState) (teeth : ℕ) (angle : ℝ) (_h : 0 < teeth) :
    (addGear p teeth angle).rotation =
      Real.pi + angle + (angle - p.rotation) * ((p.teeth : ℝ) / (teeth : ℝ)) := by
  simp [addGear, mkGear, calculateRatio, positionGear, rotateGear]

/-- C5 (witness): the formula evaluated for `Gear(20, 3, 20°).addGear(10, 1)`. -/
theorem addGear_rotation_formula_witness :
    0 < 10 ∧
    (addGear (mkGear 20 3 20 none) 10 1).rotation =
      Real.pi + 1 + (1 - (mkGear 20 3 20 none).rotation) *
        (((mkGear 20 3 20 none).teeth : ℝ) / ((10 : ℕ) : ℝ)) :=
  ⟨by norm_num, addGear_rotation_formula (mkGear 20 3 20 none) 10 1 (by norm_num)⟩

/-- C6: a child attached with `angle = 0` is placed exactly
`module * (teeth_self + teeth_pinion) / 2` along the x-axis from its pinion's
centre; concretely, `Gear(20, module=3, 20°).addGear(10, 0)` yields
`x = 45`, `y = 0`, `ratio = 2`, `rotationSpeed = -2`. -/
theorem addGear_angle_zero_placement :
    (∀ (p : GearState) (teeth : ℕ),
      (addGear p teeth 0).x = p.x + p.mod * ((teeth : ℝ) + (p.teeth : ℝ)) / 2 ∧
      (addGear p teeth 0).y = p.y) ∧
    ((addGear (mkGear 20 3 20 none) 10 0).x = 45 ∧
     (addGear (mkGear 20 3 20 none) 10 0).y = 0 ∧
     (addGear (mkGear 20 3 20 none) 10 0).ratio = 2 ∧
     (addGear (mkGear 20 3 20 none) 10 0).rotationSpeed = -2) := by
  constructor
  · intro p teeth
    refine ⟨?_, ?_⟩
    · simp [addGear, mkGear, calculateRatio, positionGear, rotateGear]
      ring
    · simp [addGear, mkGear, calculateRatio, positionGear, rotateGear]
  · refine ⟨?_, ?_, ?_, ?_⟩ <;> norm_num [addGear, mkGear, calculateRatio, positionGear, rotateGear]

/-- C9: `driveBy(a)` on the gear at index `i` adds exactly
`a * rotationSpeed` to that gear's rotation and changes nothing else: every
other gear object (children included) is untouched, and of the driven gear's
own fields only `rotation` changes. -/
theorem driveByAt_frame (t : List GearNode) (i : ℕ) (a : ℝ) :
    (∀ j, j ≠ i → (driveByAt t i a)[j]? = t[j]?) ∧
    (∀ n, t[i]? = some n → (driveByAt t i a)[i]? =
      some { n with state := { n.state with
        rotation := n.state.rotation + a * n.state.rotationSpeed } }) := by
  induction t generalizing i with
  | nil => exact ⟨fun j _ => by simp [driveByAt], fun n h => by simp at h⟩
  | cons hd tl ih =>
    cases i with
    | zero =>
      refine ⟨fun j hj => ?_, fun n h => ?_⟩
      · cases j with
        | zero => exact absurd rfl hj
        | succ j' => simp [driveByAt]
      · simp only [List.getElem?_cons_zero, Option.some.injEq] at h
        subst h
        simp [driveByAt, driveBy]
    | succ i' =>
      refine ⟨fun j hj => ?_, fun n h => ?_⟩
      · cases j with
        | zero => simp [driveByAt]
        | succ j' =>
          have hj' : j' ≠ i' := fun hc => hj (by rw [hc])
          simpa [driveByAt] using (ih i').1 j' hj'
      · have := (ih i').2 n (by simpa using h)
        simpa [driveByAt] using this

/-- C9 (witness): driving the root of a two-gear tree by `2` leaves the child
object untouched and changes only the root's rotation. -/
theorem driveByAt_frame_witness :
    (driveByAt [⟨mkGear 20 3 20 none, none⟩,
        ⟨addGear (mkGear 20 3 20 none) 10 0, some 0⟩] 0 2)[1]? =
      [(⟨mkGear 20 3 20 none, none⟩ : GearNode),
        ⟨addGear (mkGear 20 3 20 none) 10 0, some 0⟩][1]? ∧
    (driveByAt [⟨mkGear 20 3 20 none, none⟩,
        ⟨addGear (mkGear 20 3 20 none) 10 0, some 0⟩] 0 2)[0]? =
      some { (⟨mkGear 20 3 20 none, none⟩ : GearNode) with
        state := { mkGear 20 3 20 none with
          rotation := (mkGear 20 3 20 none).rotation + 2 * (mkGear 20 3 20 none).rotationSpeed } } :=
  ⟨(driveByAt_frame _ 0 2).1 1 (by norm_num),
   (driveByAt_frame _ 0 2).2 _ rfl⟩

/-- The distance of an involute point from the origin, in closed form. -/
theorem vlength_involutePoint (t b : ℝ) (hb : 0 ≤ b) :
    vlength (involutePoint t b) = b * Real.sqrt (1 + t ^ 2) := by
  unfold vlength involutePoint
  have h1 : (b * (Real.cos t + t * Real.sin t)) ^ 2
      + (b * (Real.sin t - t * Real.cos t)) ^ 2 = b ^ 2 * (1 + t ^ 2) := by
    linear_combination (b ^ 2 * (1 + t ^ 2)) * Real.sin_sq_add_cos_sq t
  rw [h1, Real.sqrt_mul (sq_nonneg b), Real.sqrt_sq hb]

/-- The loop only ever appends to its accumulator. -/
theorem involuteLoop_length_le (b m s : ℝ) :
    ∀ (fuel : ℕ) (t : ℝ) (pt : ℝ × ℝ) (acc : List (ℝ × ℝ)),
      acc.length ≤ (involuteLoop b m s fuel t pt acc).length := by
  intro fuel
  induction fuel with
  | zero => intro t pt acc; simp [involuteLoop]
  | succ f ih =>
    intro t pt acc
    simp only [involuteLoop]
    split
    · exact le_trans (by simp) (ih (t + s) (involutePoint t b) (acc ++ [involutePoint t b]))
    · exact le_refl _

/-- C2 (amended): for `0 < baseRadius < maxRadius` the sampler (run with any
fuel ≥ 1, hence also with unbounded fuel) returns at least two points, its
last point is the exact endpoint `involutePoint(sqrt(maxRadius²/baseRadius² - 1))`,
and that endpoint lies at distance exactly `maxRadius` from the origin. -/
theorem involuteCurve_endpoint (b m : ℝ) (fuel : ℕ) (hb : 0 < b) (hm : b < m)
    (hf : 1 ≤ fuel) :
    2 ≤ (generateInvoluteCurve b m INVOLUTE_STEP fuel).length ∧
    (generateInvoluteCurve b m INVOLUTE_STEP fuel).getLast? =
      some (involutePoint (Real.sqrt (m ^ 2 / b ^ 2 - 1)) b) ∧
    vlength (involutePoint (Real.sqrt (m ^ 2 / b ^ 2 - 1)) b) = m := by
  refine ⟨?_, ?_, ?_⟩
  · obtain ⟨f, rfl⟩ : ∃ f, fuel = f + 1 := ⟨fuel - 1, (Nat.succ_pred_eq_of_pos hf).symm⟩
    unfold generateInvoluteCurve
    rw [List.length_append]
    have hcond : vlength (involutePoint 0 b) < m := by
      rw [vlength_involutePoint 0 b hb.le]
      simpa using hm
    have hloop : 1 ≤ (involuteLoop b m INVOLUTE_STEP (f + 1) 0 (involutePoint 0 b) []).length := by
      simp only [involuteLoop, if_pos hcond]
      exact le_trans (by simp) (involuteLoop_length_le b m INVOLUTE_STEP f _ _ _)
    simp only [List.length_cons, List.length_nil]
    omega
  · exact List.getLast?_concat _
  · have hm0 : 0 < m := lt_trans hb hm
    have hb2 : (0 : ℝ) < b ^ 2 := by positivity
    have harg : 0 ≤ m ^ 2 / b ^ 2 - 1 := by
      rw [sub_nonneg, le_div_iff₀ hb2]
      nlinarith
    rw [vlength_involutePoint _ _ hb.le, Real.sq_sqrt harg]
    have h1 : 1 + (m ^ 2 / b ^ 2 - 1) = (m / b) ^ 2 := by
      field_simp
    rw [h1, Real.sqrt_sq (by positivity)]
    field_simp

/-- C2 (witness): the endpoint guarantee evaluated at `b = 1`, `m = 2`. -/
theorem involuteCurve_endpoint_witness :
    ((0 : ℝ) < 1 ∧ (1 : ℝ) < 2 ∧ 1 ≤ 1) ∧
    (2 ≤ (generateInvoluteCurve 1 2 INVOLUTE_STEP 1).length ∧
     (generateInvoluteCurve 1 2 INVOLUTE_STEP 1).getLast? =
       some (involutePoint (Real.sqrt ((2 : ℝ) ^ 2 / (1 : ℝ) ^ 2 - 1)) 1) ∧
     vlength (involutePoint (Real.sqrt ((2 : ℝ) ^ 2 / (1 : ℝ) ^ 2 - 1)) 1) = 2) :=
  ⟨⟨by norm_num, by norm_num, le_refl 1⟩,
   involuteCurve_endpoint 1 2 1 (by norm_num) (by norm_num) (le_refl 1)⟩

/-- C2 (counterexample to the claim as stated): at `baseRadius = maxRadius = 1`
(allowed by the claim, which only asks `m ≥ b`) the loop's entry test fails at
once — the `t = 0` point already has distance `1` — so the returned curve is
the single exact endpoint, not two or more points. -/
theorem involuteCurve_single_point_cex :
    ((0 : ℝ) < 1 ∧ (1 : ℝ) ≤ 1) ∧
    ¬ 2 ≤ (generateInvoluteCurve 1 1 INVOLUTE_STEP 5).length := by
  have hpt : vlength (involutePoint 0 1) = 1 := by
    rw [vlength_involutePoint 0 1 (by norm_num)]
    simp
  have hloop : ∀ f, involuteLoop 1 1 INVOLUTE_STEP f 0 (involutePoint 0 1) []
      = ([] : List (ℝ × ℝ)) := by
    intro f
    cases f with
    | zero => simp [involuteLoop]
    | succ f =>
      simp only [involuteLoop]
      rw [if_neg (by rw [hpt]; exact lt_irrefl 1)]
  refine ⟨⟨by norm_num, le_refl 1⟩, ?_⟩
  unfold generateInvoluteCurve
  rw [hloop 5]
  simp

/-- Unfolding lemma for the `pitchCircleRadius` field. -/
theorem generateGearParams_pitchCircleRadius (teeth : ℕ) (mod pressureAngleDeg : ℝ) :
    (generateGearParams teeth mod pressureAngleDeg).pitchCircleRadius
      = mod * (teeth : ℝ) / 2 := rfl

/-- Unfolding lemma for the `baseCircleRadius` field. -/
theorem generateGearParams_baseCircleRadius (teeth : ℕ) (mod pressureAngleDeg : ℝ) :
    (generateGearParams teeth mod pressureAngleDeg).baseCircleRadius
      = mod * (teeth : ℝ) / 2 * Real.cos (degToRad pressureAngleDeg) := rfl

/-- Unfolding lemma for the `maxRadius` field. -/
theorem generateGearParams_maxRadius (teeth : ℕ) (mod pressureAngleDeg : ℝ) :
    (generateGearParams teeth mod pressureAngleDeg).maxRadius
      = mod * (teeth : ℝ) / 2 + mod := rfl

/-- Unfolding lemma for the `minRadius` field. -/
theorem generateGearParams_minRadius (teeth : ℕ) (mod pressureAngleDeg : ℝ) :
    (generateGearParams teeth mod pressureAngleDeg).minRadius
      = mod * (teeth : ℝ) / 2 - 1.2 * mod := rfl

/-- Unfolding lemma for the `alpha` field. -/
theorem generateGearParams_alpha (teeth : ℕ) (mod pressureAngleDeg : ℝ) :
    (generateGearParams teeth mod pressureAngleDeg).alpha
      = Real.sqrt ((mod * (teeth : ℝ) / 2) ^ 2
            - (mod * (teeth : ℝ) / 2 * Real.cos (degToRad pressureAngleDeg)) ^ 2)
          / (mod * (teeth : ℝ) / 2 * Real.cos (degToRad pressureAngleDeg))
        - degToRad pressureAngleDeg := rfl

/-- Unfolding lemma for the `teeth` field. -/
theorem generateGearParams_teeth (teeth : ℕ) (mod pressureAngleDeg : ℝ) :
    (generateGearParams teeth mod pressureAngleDeg).teeth = teeth := rfl

/-- C7: for every valid input (`teeth ≥ 1`, `module > 0`, pressure angle
strictly between `0` and `π/2`) the derived radii satisfy
`baseCircleRadius < pitchCircleRadius < maxRadius` and
`minRadius < pitchCircleRadius`. -/
theorem gearParams_radius_ordering (teeth : ℕ) (mod pressureAngleDeg : ℝ)
    (ht : 1 ≤ teeth) (hm : 0 < mod)
    (h1 : 0 < degToRad pressureAngleDeg) (h2 : degToRad pressureAngleDeg < Real.pi / 2) :
    (generateGearParams teeth mod pressureAngleDeg).baseCircleRadius
        < (generateGearParams teeth mod pressureAngleDeg).pitchCircleRadius ∧
    (generateGearParams teeth mod pressureAngleDeg).pitchCircleRadius
        < (generateGearParams teeth mod pressureAngleDeg).maxRadius ∧
    (generateGearParams teeth mod pressureAngleDeg).minRadius
        < (generateGearParams teeth mod pressureAngleDeg).pitchCircleRadius := by
  have hteeth : (1 : ℝ) ≤ (teeth : ℝ) := by exact_mod_cast ht
  have hr : 0 < mod * (teeth : ℝ) / 2 := by nlinarith
  have hsin : 0 < Real.sin (degToRad pressureAngleDeg) :=
    Real.sin_pos_of_pos_of_lt_pi h1 (by linarith [Real.pi_pos])
  have hcos1 : Real.cos (degToRad pressureAngleDeg) < 1 := by
    nlinarith [Real.sin_sq_add_cos_sq (degToRad pressureAngleDeg), mul_pos hsin hsin,
      sq_nonneg (Real.cos (degToRad pressureAngleDeg) - 1)]
  refine ⟨?_, ?_, ?_⟩
  · rw [generateGearParams_baseCircleRadius, generateGearParams_pitchCircleRadius]
    nlinarith
  · rw [generateGearParams_pitchCircleRadius, generateGearParams_maxRadius]
    linarith
  · rw [generateGearParams_minRadius, generateGearParams_pitchCircleRadius]
    nlinarith

/-- C7 (witness): the ordering evaluated for `teeth = 20`, `module = 3`,
pressure angle `20°`. -/
theorem gearParams_radius_ordering_witness :
    (1 ≤ 20 ∧ (0 : ℝ) < 3 ∧ 0 < degToRad 20 ∧ degToRad 20 < Real.pi / 2) ∧
    ((generateGearParams 20 3 20).baseCircleRadius
        < (generateGearParams 20 3 20).pitchCircleRadius ∧
     (generateGearParams 20 3 20).pitchCircleRadius
        < (generateGearParams 20 3 20).maxRadius ∧
     (generateGearParams 20 3 20).minRadius
        < (generateGearParams 20 3 20).pitchCircleRadius) :=
  ⟨⟨by norm_num, by norm_num,
    by unfold degToRad; nlinarith [Real.pi_pos],
    by unfold degToRad; nlinarith [Real.pi_pos]⟩,
   gearParams_radius_ordering 20 3 20 (by norm_num) (by norm_num)
     (by unfold degToRad; nlinarith [Real.pi_pos])
     (by unfold degToRad; nlinarith [Real.pi_pos])⟩

/-- C10: the `alpha` computed by `generateGearParams` equals
`tan(pressureAngle) - pressureAngle`, the involute function of the pressure
angle, independent of `module` and `teeth`. -/
theorem gearParams_alpha_eq_tan (teeth : ℕ) (mod pressureAngleDeg : ℝ)
    (ht : 1 ≤ teeth) (hm : 0 < mod)
    (h1 : 0 < degToRad pressureAngleDeg) (h2 : degToRad pressureAngleDeg < Real.pi / 2) :
    (generateGearParams teeth mod pressureAngleDeg).alpha
      = Real.tan (degToRad pressureAngleDeg) - degToRad pressureAngleDeg := by
  have hteeth : (1 : ℝ) ≤ (teeth : ℝ) := by exact_mod_cast ht
  have hr : 0 < mod * (teeth : ℝ) / 2 := by nlinarith
  have hsin : 0 < Real.sin (degToRad pressureAngleDeg) :=
    Real.sin_pos_of_pos_of_lt_pi h1 (by linarith [Real.pi_pos])
  have hcos : 0 < Real.cos (degToRad pressureAngleDeg) :=
    Real.cos_pos_of_mem_Ioo ⟨by linarith, h2⟩
  rw [generateGearParams_alpha]
  have hkey : Real.sqrt ((mod * (teeth : ℝ) / 2) ^ 2
      - (mod * (teeth : ℝ) / 2 * Real.cos (degToRad pressureAngleDeg)) ^ 2)
      = mod * (teeth : ℝ) / 2 * Real.sin (degToRad pressureAngleDeg) := by
    have hsq : (mod * (teeth : ℝ) / 2) ^ 2
        - (mod * (teeth : ℝ) / 2 * Real.cos (degToRad pressureAngleDeg)) ^ 2
        = (mod * (teeth : ℝ) / 2 * Real.sin (degToRad pressureAngleDeg)) ^ 2 := by
      linear_combination (-((mod * (teeth : ℝ) / 2) ^ 2))
        * Real.sin_sq_add_cos_sq (degToRad pressureAngleDeg)
    rw [hsq, Real.sqrt_sq (by positivity)]
  rw [hkey, Real.tan_eq_sin_div_cos]
  rw [mul_div_mul_left _ _ hr.ne']

/-- C10 (witness): evaluated at `teeth = 1`, `module = 1`, pressure angle
`45°` (i.e. `π/4` radians). -/
theorem gearParams_alpha_eq_tan_witness :
    (1 ≤ 1 ∧ (0 : ℝ) < 1 ∧ 0 < degToRad 45 ∧ degToRad 45 < Real.pi / 2) ∧
    (generateGearParams 1 1 45).alpha = Real.tan (degToRad 45) - degToRad 45 :=
  ⟨⟨le_refl 1, by norm_num,
    by unfold degToRad; nlinarith [Real.pi_pos],
    by unfold degToRad; nlinarith [Real.pi_pos]⟩,
   gearParams_alpha_eq_tan 1 1 45 (le_refl 1) (by norm_num)
     (by unfold degToRad; nlinarith [Real.pi_pos])
     (by unfold degToRad; nlinarith [Real.pi_pos])⟩

/-- Rotating by `θ` and then by `-θ` about the origin is the identity. -/
theorem rotateAround_neg_cancel (v : ℝ × ℝ) (θ : ℝ) :
    rotateAround (rotateAround v θ) (-θ) = v := by
  obtain ⟨x, y⟩ := v
  unfold rotateAround
  simp only [Real.cos_neg, Real.sin_neg]
  refine Prod.ext ?_ ?_
  · show (x * Real.cos θ - y * Real.sin θ) * Real.cos θ
        - (x * Real.sin θ + y * Real.cos θ) * -Real.sin θ = x
    linear_combination x * Real.sin_sq_add_cos_sq θ
  · show (x * Real.cos θ - y * Real.sin θ) * -Real.sin θ
        + (x * Real.sin θ + y * Real.cos θ) * Real.cos θ = y
    linear_combination y * Real.sin_sq_add_cos_sq θ

/-- Rotating by a whole number of turns about the origin is the identity. -/
theorem rotateAround_two_pi_int (v : ℝ × ℝ) (k : ℤ) :
    rotateAround v (2 * Real.pi * k) = v := by
  obtain ⟨x, y⟩ := v
  have hc : Real.cos (2 * Real.pi * k) = 1 := by
    rw [show 2 * Real.pi * (k : ℝ) = (k : ℝ) * (2 * Real.pi) by ring]
    exact Real.cos_int_mul_two_pi k
  have hs : Real.sin (2 * Real.pi * k) = 0 := by
    rw [show 2 * Real.pi * (k : ℝ) = ((2 * k : ℤ) : ℝ) * Real.pi by push_cast; ring]
    exact Real.sin_int_mul_pi (2 * k)
  unfold rotateAround
  rw [hc, hs]
  simp

/-- `rotateShape` at angle `0` takes the fast path and returns the shape. -/
theorem rotateShape_zero (shape : List (ℝ × ℝ)) : rotateShape shape 0 = shape := by
  unfold rotateShape
  rw [if_pos ⟨0, by simp⟩]

/-- Undoing a `rotateShape` by rotating the points back recovers the original
point list, whichever branch `rotateShape` took. -/
theorem rotateVec2Array_rotateShape (shape : List (ℝ × ℝ)) (θ : ℝ) :
    rotateVec2Array (rotateShape shape θ) (-θ) = shape := by
  unfold rotateShape
  split
  · rename_i h
    obtain ⟨k, rfl⟩ := h
    unfold rotateVec2Array
    rw [show -(2 * Real.pi * (k : ℝ)) = 2 * Real.pi * ((-k : ℤ) : ℝ) by push_cast; ring]
    simp only [rotateAround_two_pi_int]
    exact List.map_id shape
  · unfold rotateVec2Array
    rw [List.map_map]
    simp only [Function.comp_def, rotateAround_neg_cancel]
    exact List.map_id shape

/-- C8: the gear-shape generator returns exactly `teeth` polygons, and
rotating polygon `i` about the origin by `-i * pitchAngle` reproduces
polygon `0` exactly. -/
theorem gearShape_count_and_symmetry (params : GearParams) (fuel : ℕ) :
    (generateGearShapeFromParams params fuel).length = params.teeth ∧
    ∀ i : ℕ, i < params.teeth →
      ((generateGearShapeFromParams params fuel)[i]?).map
          (fun s => rotateVec2Array s (-((i : ℝ) * params.pitchAngle))) =
        (generateGearShapeFromParams params fuel)[0]? := by
  constructor
  · simp [generateGearShapeFromParams]
  · intro i hi
    have h0 : 0 < params.teeth := lt_of_le_of_lt (Nat.zero_le i) hi
    unfold generateGearShapeFromParams
    rw [List.getElem?_map, List.getElem?_range hi, List.getElem?_map, List.getElem?_range h0]
    simp only [Option.map_some']
    rw [rotateVec2Array_rotateShape]
    norm_num [rotateShape_zero]

/-- C8 (witness): the symmetry evaluated for the 2-tooth parameter set
`generateGearParams 2 1 20` at polygon index `1`. -/
theorem gearShape_count_and_symmetry_witness :
    (generateGearShapeFromParams (generateGearParams 2 1 20) 0).length
        = (generateGearParams 2 1 20).teeth ∧
    ((generateGearShapeFromParams (generateGearParams 2 1 20) 0)[1]?).map
        (fun s => rotateVec2Array s (-(((1 : ℕ) : ℝ) * (generateGearParams 2 1 20).pitchAngle))) =
      (generateGearShapeFromParams (generateGearParams 2 1 20) 0)[0]? :=
  ⟨(gearShape_count_and_symmetry (generateGearParams 2 1 20) 0).1,
   (gearShape_count_and_symmetry (generateGearParams 2 1 20) 0).2 1
     (by rw [generateGearParams_teeth]; norm_num)⟩
